import Mathlib

/-!
Verification of the report-generation pipeline (Flask backend).

Shallow embedding of the backend of the Optisol report generator:
`web_search.py` (SerpAPI client), `ai_processor.py` (report synthesizer with
JSON extraction and deterministic fallback), `chart_generator.py`,
`report_generator.py` (PDF assembler) and `app.py` (request orchestrator).

External effects (HTTP calls to the Hugging Face and SerpAPI endpoints,
matplotlib/plotly rasterization, fpdf byte layout) are modelled as explicit
parameters: an `Option` outcome for each outbound call (`none` = the call or
its parsing raised), and a `String → String` oracle for chart-image
rendering.  Everything the local Python code computes is embedded directly.
-/

namespace Optisol

/-! ## Python JSON values

`Json` models the Python values produced by `json.loads`: objects become
dicts (modelled as ordered key/value lists, later lookups shadowing earlier
ones as in Python), arrays become lists, strings/booleans/`null` map to their
obvious counterparts.  Numbers keep their source lexeme (covering both int
and float literals; no claim inspects numeric magnitude). -/
inductive Json where
  | null : Json
  | bool (b : Bool) : Json
  | num (lexeme : String) : Json
  | str (s : String) : Json
  | arr (elems : List Json) : Json
  | obj (fields : List (String × Json)) : Json

/-- A Python dict as produced by `json.loads` on an object: ordered fields. -/
abbrev PyDict := List (String × Json)

/-- The character `\x7b` (left curly brace). -/
def lbrace : Char := Char.ofNat 123

/-- The character `\x7d` (right curly brace). -/
def rbrace : Char := Char.ofNat 125

/-- JSON whitespace as accepted by Python's `json.loads`: space, tab,
linefeed, carriage return. -/
def isJsonWs (c : Char) : Bool :=
  c == ' ' || c == '\t' || c == '\n' || c == '\r'

/-- Drop leading JSON whitespace. -/
def skipWs : List Char → List Char
  | [] => []
  | c :: cs => if isJsonWs c then skipWs cs else c :: cs

/-- Value of a hex digit, if the character is one. -/
def hexVal (c : Char) : Option Nat :=
  if '0' ≤ c ∧ c ≤ '9' then some (c.toNat - '0'.toNat)
  else if 'a' ≤ c ∧ c ≤ 'f' then some (c.toNat - 'a'.toNat + 10)
  else if 'A' ≤ c ∧ c ≤ 'F' then some (c.toNat - 'A'.toNat + 10)
  else none

/-- The single-character JSON string escapes. -/
def unescape (e : Char) : Option Char :=
  if e = '\"' then some '\"'
  else if e = '\\' then some '\\'
  else if e = '/' then some '/'
  else if e = 'b' then some (Char.ofNat 8)
  else if e = 'f' then some (Char.ofNat 12)
  else if e = 'n' then some '\n'
  else if e = 'r' then some '\r'
  else if e = 't' then some '\t'
  else none

/-- Parse the body of a JSON string (the opening quote already consumed),
returning the decoded string and the remaining input.  Mirrors Python's
strict mode: raw control characters below 0x20 are rejected.  `fuel` is
consumed one unit per character; callers pass the input length plus one. -/
def parseJStr : Nat → List Char → Option (String × List Char)
  | 0, _ => none
  | _, [] => none
  | f + 1, c :: rest =>
    if c = '\"' then some ("", rest)
    else if c.toNat < 32 then none
    else if c = '\\' then
      match rest with
      | 'u' :: h1 :: h2 :: h3 :: h4 :: r3 => do
        let a ← hexVal h1
        let b ← hexVal h2
        let c3 ← hexVal h3
        let d ← hexVal h4
        let (s, rem) ← parseJStr f r3
        pure (String.singleton (Char.ofNat (((a * 16 + b) * 16 + c3) * 16 + d)) ++ s, rem)
      | e :: r2 => do
        let u ← unescape e
        let (s, rem) ← parseJStr f r2
        pure (String.singleton u ++ s, rem)
      | [] => none
    else do
      let (s, rem) ← parseJStr f rest
      pure (String.singleton c ++ s, rem)

/-- Parse a JSON number lexeme per the grammar used by Python's `json`
module: `-? (0 | [1-9][0-9]*) (\.[0-9]+)? ([eE][+-]?[0-9]+)?`.  Returns the
matched lexeme and the remaining input. -/
def parseNumber (cs : List Char) : Option (String × List Char) :=
  let signed : Bool × List Char := match cs with
    | '-' :: r => (true, r)
    | _ => (false, cs)
  match signed.2 with
  | [] => none
  | c :: _ =>
    if !c.isDigit then none
    else
      let ip : List Char × List Char :=
        if c = '0' then ([c], signed.2.tail)
        else signed.2.span Char.isDigit
      let fp : List Char × List Char :=
        match ip.2 with
        | '.' :: d :: r =>
          if d.isDigit then
            let ds := (d :: r).span Char.isDigit
            ('.' :: ds.1, ds.2)
          else ([], ip.2)
        | _ => ([], ip.2)
      let ep : List Char × List Char :=
        match fp.2 with
        | e :: s :: d :: rr =>
          if e = 'e' ∨ e = 'E' then
            if (s = '+' ∨ s = '-') ∧ d.isDigit then
              let ds := (d :: rr).span Char.isDigit
              (e :: s :: ds.1, ds.2)
            else if s.isDigit then
              let ds := (s :: d :: rr).span Char.isDigit
              (e :: ds.1, ds.2)
            else ([], fp.2)
          else ([], fp.2)
        | e :: s :: r =>
          if (e = 'e' ∨ e = 'E') ∧ s.isDigit then
            let ds := (s :: r).span Char.isDigit
            (e :: ds.1, ds.2)
          else ([], fp.2)
        | _ => ([], fp.2)
      some (String.mk ((if signed.1 then ['-'] else []) ++ ip.1 ++ fp.1 ++ ep.1), ep.2)

/-- Parse the members of a JSON object (the opening brace and leading
whitespace already consumed, first key expected), given a parser `pv` for
values.  Mirrors Python strictness: keys are strings, no trailing comma. -/
def parseMembersWith (pv : List Char → Option (Json × List Char)) :
    Nat → List Char → Option (PyDict × List Char)
  | 0, _ => none
  | f + 1, cs =>
    match cs with
    | '\"' :: rest => do
      let (k, r1) ← parseJStr (rest.length + 1) rest
      match skipWs r1 with
      | ':' :: r3 => do
        let (v, r4) ← pv (skipWs r3)
        match skipWs r4 with
        | ',' :: r6 => do
          let (ms, r7) ← parseMembersWith pv f (skipWs r6)
          pure ((k, v) :: ms, r7)
        | c2 :: r6 => if c2 = rbrace then pure ([(k, v)], r6) else none
        | [] => none
      | _ => none
    | _ => none

/-- Parse the elements of a JSON array (the opening bracket and leading
whitespace already consumed, first element expected). -/
def parseElemsWith (pv : List Char → Option (Json × List Char)) :
    Nat → List Char → Option (List Json × List Char)
  | 0, _ => none
  | f + 1, cs => do
    let (v, r1) ← pv cs
    match skipWs r1 with
    | ',' :: r3 => do
      let (vs, r4) ← parseElemsWith pv f (skipWs r3)
      pure (v :: vs, r4)
    | c :: r3 => if c = ']' then pure ([v], r3) else none
    | [] => none

/-- Parse one JSON value.  Python's `json.loads` defaults additionally accept
the constants `NaN`, `Infinity` and `-Infinity`; they are kept as number
lexemes.  `fuel` bounds the nesting depth; callers pass input length + 1. -/
def parseValue : Nat → List Char → Option (Json × List Char)
  | 0, _ => none
  | f + 1, cs =>
    match cs with
    | [] => none
    | c :: rest =>
      if c = '\"' then
        (parseJStr (rest.length + 1) rest).map (fun p => (.str p.1, p.2))
      else if c = lbrace then
        match skipWs rest with
        | c2 :: r2 =>
          if c2 = rbrace then some (.obj [], r2)
          else
            (parseMembersWith (fun l => parseValue f l) (rest.length + 1)
                (c2 :: r2)).map (fun p => (.obj p.1, p.2))
        | [] => none
      else if c = '[' then
        match skipWs rest with
        | ']' :: r2 => some (.arr [], r2)
        | r2 =>
          (parseElemsWith (fun l => parseValue f l) (rest.length + 1)
              r2).map (fun p => (.arr p.1, p.2))
      else if c = 't' then
        match rest with
        | 'r' :: 'u' :: 'e' :: r => some (.bool true, r)
        | _ => none
      else if c = 'f' then
        match rest with
        | 'a' :: 'l' :: 's' :: 'e' :: r => some (.bool false, r)
        | _ => none
      else if c = 'n' then
        match rest with
        | 'u' :: 'l' :: 'l' :: r => some (.null, r)
        | _ => none
      else if c = 'N' then
        match rest with
        | 'a' :: 'N' :: r => some (.num "NaN", r)
        | _ => none
      else if c = 'I' then
        match rest with
        | 'n' :: 'f' :: 'i' :: 'n' :: 'i' :: 't' :: 'y' :: r => some (.num "Infinity", r)
        | _ => none
      else if c = '-' then
        match rest with
        | 'I' :: 'n' :: 'f' :: 'i' :: 'n' :: 'i' :: 't' :: 'y' :: r =>
          some (.num "-Infinity", r)
        | _ => (parseNumber cs).map (fun p => (.num p.1, p.2))
      else if c.isDigit then
        (parseNumber cs).map (fun p => (.num p.1, p.2))
      else none

/-- Model of Python's `json.loads`: parse a complete JSON document
(surrounding whitespace allowed, trailing garbage rejected). -/
def jsonLoads (s : String) : Option Json :=
  let cs := skipWs s.data
  match parseValue (cs.length + 1) cs with
  | some (v, rest) => if skipWs rest = [] then some v else none
  | none => none

/-- `json.loads` restricted to the dict case: `AIProcessor._extract_json`
keeps a parse only when `isinstance(parsed, dict)`. -/
def jsonLoadsDict (s : String) : Option PyDict :=
  match jsonLoads s with
  | some (.obj kvs) => some kvs
  | _ => none

/-! ## `AIProcessor._extract_json` (ai_processor.py lines 19–34)

The Python code runs `re.findall` with two patterns over the generated text
and returns the first candidate that `json.loads` turns into a dict:

  pattern 1: a brace-balanced substring of nesting depth at most two, with
             every inner brace pair immediately closed (the regex
             `\x7b[^\x7b\x7d]*(?:\x7b[^\x7b\x7d]*\x7d[^\x7b\x7d]*)*\x7d`);
  pattern 2: a lazy `\x7b.*?\x7d` with DOTALL — from each left brace to the
             first following right brace.

Both scanners below reproduce the leftmost, non-overlapping semantics of
`re.findall`; the quantifiers of pattern 1 leave the backtracking engine no
real choice, so its match attempt at a given position is the deterministic
scan `p1After`. -/

/-- True for characters other than the two curly braces. -/
def nonBrace (c : Char) : Bool := c != lbrace && c != rbrace

/-- Attempt of pattern 1 at a position whose left brace is already consumed:
alternately skip non-brace runs and complete, unnested inner brace pairs
until the closing brace; fail on a nested or unclosed inner brace.  Returns
the matched characters (closing brace included) and the rest. -/
def p1After : Nat → List Char → Option (List Char × List Char)
  | 0, _ => none
  | f + 1, cs =>
    let sp := cs.span nonBrace
    match sp.2 with
    | [] => none
    | c :: rest =>
      if c = rbrace then some (sp.1 ++ [rbrace], rest)
      else
        let sp2 := rest.span nonBrace
        match sp2.2 with
        | c2 :: rest2 =>
          if c2 = rbrace then
            (p1After f rest2).map
              (fun p => (sp.1 ++ (lbrace :: sp2.1 ++ [rbrace]) ++ p.1, p.2))
          else none
        | [] => none

/-- `re.findall` for pattern 1: try a match at each position left to right;
on success emit it and continue after it, otherwise move one character. -/
def findall1Aux : Nat → List Char → List String
  | 0, _ => []
  | _, [] => []
  | f + 1, c :: rest =>
    if c = lbrace then
      match p1After (rest.length + 1) rest with
      | some p => String.mk (lbrace :: p.1) :: findall1Aux f p.2
      | none => findall1Aux f rest
    else findall1Aux f rest

/-- All matches of the first (balanced-brace) pattern in the text. -/
def findall1 (s : String) : List String :=
  findall1Aux (s.data.length + 1) s.data

/-- `re.findall` for the lazy pattern 2: each left brace up to the first
following right brace, leftmost and non-overlapping. -/
def findall2Aux : Nat → List Char → List String
  | 0, _ => []
  | _, [] => []
  | f + 1, c :: rest =>
    if c = lbrace then
      let sp := rest.span (fun ch => ch != rbrace)
      match sp.2 with
      | _ :: rem => String.mk (lbrace :: sp.1 ++ [rbrace]) :: findall2Aux f rem
      | [] => []
    else findall2Aux f rest

/-- All matches of the second (lazy dot) pattern in the text. -/
def findall2 (s : String) : List String :=
  findall2Aux (s.data.length + 1) s.data

/-- First candidate in the list that `json.loads` parses into a dict. -/
def firstDictParse : List String → Option PyDict
  | [] => none
  | c :: rest =>
    match jsonLoadsDict c with
    | some d => some d
    | none => firstDictParse rest

/-- `AIProcessor._extract_json`: all pattern-1 candidates are tried before
any pattern-2 candidate; the first successful dict parse wins. -/
def extract_json (text : String) : Option PyDict :=
  match firstDictParse (findall1 text) with
  | some d => some d
  | none => firstDictParse (findall2 text)

/-! ## Python value helpers used by the synthesizer and assembler -/

/-- Lookup in a Python dict: later occurrences of a key shadow earlier ones
(the invariant `json.loads` establishes when an object repeats a key). -/
def pyGet : PyDict → String → Option Json
  | [], _ => none
  | (k', v) :: rest, k =>
    match pyGet rest k with
    | some r => some r
    | none => if k' = k then some v else none

/-- `d.get(k, dflt)`. -/
def pyGetD (d : PyDict) (k : String) (dflt : Json) : Json :=
  (pyGet d k).getD dflt

/-- Is a number lexeme zero (Python falsy)?  True exactly when the mantissa
consists of zeros; `NaN`/`Infinity` lexemes are non-zero. -/
def numIsZero (lex : String) : Bool :=
  let m := (lex.data.dropWhile (fun c => c == '-')).takeWhile
    (fun c => !(c == 'e') && !(c == 'E'))
  !m.isEmpty && m.all (fun c => c == '0' || c == '.')

/-- Python truthiness of a parsed JSON value: `None`, `False`, zero numbers
and empty strings/lists/dicts are falsy. -/
def jsonTruthy : Json → Bool
  | .null => false
  | .bool b => b
  | .num lex => !numIsZero lex
  | .str s => !s.isEmpty
  | .arr xs => !xs.isEmpty
  | .obj kvs => !kvs.isEmpty

/-- Python `repr` of a parsed JSON value, to bounded depth (CPython itself
recurses and aborts near depth 1000; no claim inspects nested reprs). -/
def pyReprAux : Nat → Json → String
  | _, .null => "None"
  | _, .bool true => "True"
  | _, .bool false => "False"
  | _, .num lex => lex
  | _, .str s => "'" ++ s ++ "'"
  | 0, .arr _ => "[...]"
  | 0, .obj _ => "\x7b...\x7d"
  | f + 1, .arr xs =>
    "[" ++ String.intercalate ", " (xs.map (fun x => pyReprAux f x)) ++ "]"
  | f + 1, .obj kvs =>
    "\x7b" ++ String.intercalate ", "
      (kvs.map (fun kv => "'" ++ kv.1 ++ "': " ++ pyReprAux f kv.2)) ++ "\x7d"

/-- Python `str` of a parsed JSON value: identity on strings, `None`/`True`/
`False` for the constants, the numeric text for numbers, `repr` for
containers. -/
def pyStr : Json → String
  | .null => "None"
  | .bool true => "True"
  | .bool false => "False"
  | .num lex => lex
  | .str s => s
  | .arr xs => pyReprAux 1000 (.arr xs)
  | .obj kvs => pyReprAux 1000 (.obj kvs)

/-- Python whitespace stripped by `str.strip()` (the ASCII cases). -/
def isPySpace (c : Char) : Bool :=
  c == ' ' || c == '\t' || c == '\n' || c == '\r' ||
    c == Char.ofNat 11 || c == Char.ofNat 12

/-- Python `s.strip()`. -/
def pyStrip (s : String) : String :=
  String.mk (((s.data.dropWhile isPySpace).reverse.dropWhile isPySpace).reverse)

/-- Python `s[:n]` for a string and non-negative `n` (slices code points). -/
def pySliceStr (s : String) (n : Nat) : String :=
  String.mk (s.data.take n)

/-- Python `x[:n]` on a parsed JSON value: lists and strings slice; every
other value raises `TypeError` (modelled as `none`). -/
def pySlice (v : Json) (n : Nat) : Option Json :=
  match v with
  | .arr xs => some (.arr (xs.take n))
  | .str s => some (.str (pySliceStr s n))
  | _ => none

/-- Python `v or dflt`. -/
def pyOr (v : Json) (dflt : Json) : Json :=
  if jsonTruthy v then v else dflt

/-! ## Web search client (`web_search.py`)

The SerpAPI call `GoogleSearch(params).get_dict()` is external; its outcome
is a parameter: `none` models any exception raised by the provider call or
by result parsing, `some results` the returned dict, typed by the fields the
parser reads.  Absent dict keys are `Option.none`, read with the `.get`
defaults of the source. -/

/-- A normalized search result record. -/
structure SearchResult where
  title : String
  description : String
  url : String
  source : String
deriving DecidableEq, Repr

/-- One entry of the provider's `organic_results`. -/
structure OrganicResult where
  title : Option String
  snippet : Option String
  link : Option String
  displayed_link : Option String
deriving Repr

/-- The provider's `answer_box` (featured snippet), when present and
non-empty. -/
structure AnswerBox where
  title : Option String
  answer : Option String
  snippet : Option String
  link : Option String
deriving Repr

/-- The provider dict as read by `WebSearchService._parse_results`. -/
structure SerpData where
  organic_results : List OrganicResult
  answer_box : Option AnswerBox
deriving Repr

/-- The provider dict as read by `_parse_news_results`. -/
structure NewsItem where
  title : Option String
  snippet : Option String
  link : Option String
  source : Option String
  date : Option String
deriving Repr

/-- A normalized news result record (has the extra `date` field). -/
structure NewsResult where
  title : String
  description : String
  url : String
  source : String
  date : String
deriving DecidableEq, Repr

/-- `WebSearchService._get_fallback_results`. -/
def get_fallback_results : List SearchResult :=
  [{ title := "Sample Result 1",
     description := "This is a fallback result for demo purposes.",
     url := "https://example.com",
     source := "example.com" }]

/-- `WebSearchService._parse_results`: map the organic results, then insert
the featured answer (if any) at position 0 with source `Featured Snippet`. -/
def parse_results (results : SerpData) : List SearchResult :=
  let organic := results.organic_results.map (fun r =>
    { title := r.title.getD ""
      description := r.snippet.getD ""
      url := r.link.getD ""
      source := r.displayed_link.getD "" })
  match results.answer_box with
  | none => organic
  | some ab =>
    { title := ab.title.getD "Featured Answer"
      description := ab.answer.getD (ab.snippet.getD "")
      url := ab.link.getD ""
      source := "Featured Snippet" } :: organic

/-- `WebSearchService.search`: a missing (or empty, hence falsy) API key and
any provider/parsing exception all fall back to the fixed one-element
result list.  `query` and `count` only reach the external request. -/
def search (api_key : Option String) (query : String) (count : Nat)
    (provider : Option SerpData) : List SearchResult :=
  let _request_params := (query, api_key, count, "google")
  match api_key with
  | none => get_fallback_results
  | some key =>
    if key = "" then get_fallback_results
    else
      match provider with
      | none => get_fallback_results
      | some results => parse_results results

/-- `WebSearchService._parse_news_results`. -/
def parse_news_results (results : List NewsItem) : List NewsResult :=
  results.map (fun r =>
    { title := r.title.getD ""
      description := r.snippet.getD ""
      url := r.link.getD ""
      source := r.source.getD ""
      date := r.date.getD "" })

/-- `WebSearchService.search_news`: unlike `search`, the key is never
checked (it is only placed into the request parameters), and every failure
path returns the empty list — not the fallback sentinel. -/
def search_news (api_key : Option String) (query : String) (count : Nat)
    (provider : Option (List NewsItem)) : List NewsResult :=
  let _request_params := (query, api_key, "nws", count, "google")
  match provider with
  | none => []
  | some results => parse_news_results results

/-! ## Structured-report synthesizer (`ai_processor.py`)

`AIProcessor._generate_chart` rasterizes a placeholder line plot with
matplotlib and base64-encodes the PNG; that rendering is external and is
passed in as an oracle `gen_chart : String → String` from chart title to
encoded image text.  The Hugging Face call is likewise external: its outcome
is `model_text : Option String`, the `generated_text` obtained from a 200
response (`none` models a missing/failed/non-200/unparseable response). -/

/-- `AIProcessor._format_web_results`: the numbered rendering of at most the
first five results that goes into the prompt. -/
def format_web_results (results : List SearchResult) : String :=
  if results.isEmpty then ""
  else
    String.join ((results.take 5).enum.map (fun p =>
      toString (p.1 + 1) ++ ". " ++ p.2.title ++ "\n   Source: " ++
        p.2.source ++ "\n   " ++ p.2.description ++ "\n"))

/-- `AIProcessor._create_fallback_structure`: deterministic report built
from the topic, the document length and the first web results; exactly two
generated charts; fixed two-element recommendations. -/
def create_fallback_structure (gen_chart : String → String) (topic : String)
    (document_text : String) (web_results : List SearchResult) : PyDict :=
  let summary :=
    "Analysis of " ++ topic ++
      (if document_text = "" then ""
       else ". Document provided with " ++ toString document_text.length ++
         " characters.") ++
      (if web_results.isEmpty then ""
       else " " ++ toString web_results.length ++ " web sources analyzed.")
  let findings :=
    (if document_text = "" then []
     else ["Document contains information about " ++ topic]) ++
    (if web_results.isEmpty then []
     else (web_results.take 3).map (fun r => "Reference: " ++ r.title))
  let findings := if findings.isEmpty then ["Processing complete"] else findings
  [("executive_summary", .str summary),
   ("key_findings", .arr (findings.map .str)),
   ("charts", .arr [.str (gen_chart (topic ++ " Trend 1")),
                    .str (gen_chart (topic ++ " Trend 2"))]),
   ("recommendations", .arr [.str "Review the provided sources",
                             .str "Consider additional research"])]

/-- The validation/normalization applied to a dict extracted from model
output (ai_processor.py lines 136–149): coerce and truncate the summary,
default falsy list fields, then slice each of the three list fields to at
most 5 items.  A `TypeError` from slicing a non-sliceable value (modelled
by `pySlice = none`) is caught by the surrounding `except`, hence `none`
here sends the caller to the fallback. -/
def validateParsed (gen_chart : String → String) (topic : String)
    (parsed : PyDict) : Option PyDict :=
  let es := Json.str (pySliceStr
    (pyStr (pyGetD parsed "executive_summary" (.str ("Analysis of " ++ topic))))
    1000)
  let kf := pyOr (pyGetD parsed "key_findings" (.arr []))
    (.arr [.str "See executive summary for key findings"])
  let ch := pyOr (pyGetD parsed "charts" (.arr []))
    (.arr [.str (gen_chart (topic ++ " Trend 1")),
           .str (gen_chart (topic ++ " Trend 2"))])
  let rc := pyOr (pyGetD parsed "recommendations" (.arr []))
    (.arr [.str "See executive summary for recommendations"])
  match pySlice kf 5, pySlice ch 5, pySlice rc 5 with
  | some kf5, some ch5, some rc5 =>
    some [("executive_summary", es),
          ("key_findings", kf5),
          ("charts", ch5),
          ("recommendations", rc5)]
  | _, _, _ => none

/-- `AIProcessor.generate_report_structure`: no (or empty, hence falsy)
token, a failed call, unextractable JSON (the `if not parsed:` test — true
both when `_extract_json` returned `None` and when it returned a falsy
empty dict), and a validation `TypeError` all end in the fallback
structure; otherwise the validated dict is returned. -/
def generate_report_structure (api_token : Option String)
    (model_text : Option String) (gen_chart : String → String)
    (topic : String) (document_text : String)
    (web_results : List SearchResult) : PyDict :=
  let fallback := create_fallback_structure gen_chart topic document_text web_results
  match api_token with
  | none => fallback
  | some tok =>
    if tok = "" then fallback
    else
      let _prompt :=
        "Generate a JSON report about the topic: " ++ topic ++ ".\n\n" ++
          "Include keys: executive_summary (string), key_findings (list), " ++
          "charts (list), recommendations (list). Only return valid JSON.\n\n" ++
          "Document excerpt: " ++ pySliceStr document_text 600 ++ "\n" ++
          format_web_results web_results ++ "\n"
      match model_text with
      | none => fallback
      | some generated_text =>
        match extract_json generated_text with
        | none => fallback
        | some parsed =>
          if parsed.isEmpty then fallback
          else
            match validateParsed gen_chart topic parsed with
            | some validated => validated
            | none => fallback

/-! ## Chart renderer (`chart_generator.py`)

`_create_bar_chart` and `_create_pie_chart` each wrap the plotly rendering
in their own `try`, returning the chart dict or `None`; they enter as
oracles `createBar`/`createPie`.  The element type of the data points is
irrelevant to the branching, so it is a parameter. -/

/-- A rendered chart record (`'type'`/`'image'`/`'title'` dict keys). -/
structure ChartImage where
  ctype : String
  image : String
  title : String
deriving DecidableEq, Repr

/-- `ChartGenerator.generate_charts`: fewer than two points (which subsumes
the falsy `not data_points` test) returns empty at once; otherwise the bar
chart is attempted always, the pie chart only for at most six points; a
`None` from an attempt is simply not appended. -/
def generate_charts {α : Type} (createBar createPie : List α → Option ChartImage)
    (data_points : List α) : List ChartImage :=
  if data_points.length < 2 then []
  else
    (createBar data_points).toList ++
      (if data_points.length ≤ 6 then (createPie data_points).toList else [])

/-! ## Report assembler (`report_generator.py`)

`generate_pdf` is modelled by the sequence of text elements it writes: a
bold `cell` of a given font size for titles and section headers, a regular
`multi_cell` for body text.  Chart images contribute no text (a failed
base64 decode or `pdf.image` call only skips that image).  Iterating a
non-iterable field value raises an uncaught `TypeError`, so the function
returns `Option`: `none` means `generate_pdf` raised and no artifact was
produced. -/

/-- One text element written into the PDF. -/
inductive PdfLine where
  | cellB (size : Nat) (text : String) : PdfLine
  | body (text : String) : PdfLine
deriving DecidableEq, Repr

/-- `ReportGenerator.safe_text`: falsy or blank-after-strip values become
the default placeholder, everything else its `str` form. -/
def safe_text (text : Json) (default : String) : String :=
  if !jsonTruthy text then default
  else if pyStrip (pyStr text) = "" then default
  else pyStr text

/-- Python `for x in v`: lists yield elements, strings their characters,
dicts their keys; other values raise `TypeError`. -/
def pyIter : Json → Option (List Json)
  | .arr xs => some xs
  | .str s => some (s.data.map (fun c => .str (String.singleton c)))
  | .obj kvs => some (kvs.map (fun kv => .str kv.1))
  | _ => none

/-- `ReportGenerator.generate_pdf`: the fixed page structure.  Sections 1–3
and 5 are always written; section 4 only when `charts` is non-empty; the
References section only when `citations` is truthy. -/
def generate_pdf (report_data : PyDict) (charts : List ChartImage) :
    Option (List PdfLine) := do
  let title := pySliceStr (safe_text (pyGetD report_data "title" (.str "Report")) "N/A") 80
  let summary := safe_text
    (pyGetD report_data "executive_summary" (.str "No executive summary available.")) "N/A"
  let key_findings :=
    let raw := pyGetD report_data "key_findings" (.arr [])
    if jsonTruthy raw then raw else .arr [.str "No key findings available."]
  let findings ← pyIter key_findings
  let analysis := safe_text
    (pyGetD report_data "detailed_analysis" (.str "No detailed analysis available.")) "N/A"
  let recommendations :=
    let raw := pyGetD report_data "recommendations" (.arr [])
    if jsonTruthy raw then raw else .arr [.str "No recommendations available."]
  let recs ← pyIter recommendations
  let citations := pyGetD report_data "citations" (.arr [])
  let citLines ←
    if jsonTruthy citations then
      (pyIter citations).map (fun cs =>
        PdfLine.cellB 12 "References" ::
          cs.map (fun c => PdfLine.body ("  - " ++ safe_text c "N/A")))
    else pure []
  pure ([PdfLine.cellB 20 title,
         PdfLine.cellB 14 "1. Executive Summary", PdfLine.body summary,
         PdfLine.cellB 14 "2. Key Findings"] ++
        findings.map (fun f => PdfLine.body ("  - " ++ safe_text f "N/A")) ++
        [PdfLine.cellB 14 "3. Detailed Analysis", PdfLine.body analysis] ++
        (if charts.isEmpty then [] else [PdfLine.cellB 14 "4. Data Visualizations"]) ++
        [PdfLine.cellB 14 "5. Recommendations"] ++
        recs.map (fun r => PdfLine.body ("  - " ++ safe_text r "N/A")) ++
        citLines)

/-! ## Request orchestrator (`app.py`, `generate_report`)

The handler is modelled on the POST path.  `topic` is `request.form.get`
(`none` when the form lacks the field); `document_text` is the text obtained
by the document-processing step (empty when no file was sent or extraction
failed — that step's `except` resets it to empty).  The remaining
parameters are the external outcomes threaded to the components.  The
response records the status code, the `success` flag and the two counts of
the JSON body. -/

/-- The observable part of the `/api/generate-report` response. -/
structure ApiResponse where
  status : Nat
  success : Bool
  charts_count : Nat
  search_results_count : Nat
deriving DecidableEq, Repr

/-- `generate_report` (app.py): missing/empty topic short-circuits with 400;
then search (best-effort), synthesis (a falsy report would be a 500, and the
chart step receives `report_data.get('data_points', [])`), charts
(best-effort: a `TypeError` from `len` on a non-sized value is caught,
resetting charts to empty), and PDF assembly (500 on failure). -/
def generate_report (serp_key : Option String) (serp : Option SerpData)
    (hf_token : Option String) (model_text : Option String)
    (gen_chart : String → String)
    (createBar createPie : List Json → Option ChartImage)
    (topic : Option String) (document_text : String) : ApiResponse :=
  match topic with
  | none => { status := 400, success := false, charts_count := 0, search_results_count := 0 }
  | some t =>
    if t = "" then
      { status := 400, success := false, charts_count := 0, search_results_count := 0 }
    else
      let search_results := search serp_key t 5 serp
      let report_data := generate_report_structure hf_token model_text gen_chart
        t document_text search_results
      if report_data.isEmpty then
        { status := 500, success := false, charts_count := 0, search_results_count := 0 }
      else
        let charts :=
          match pyGetD report_data "data_points" (.arr []) with
          | .arr xs => generate_charts createBar createPie xs
          | _ => []
        match generate_pdf report_data charts with
        | none =>
          { status := 500, success := false, charts_count := 0, search_results_count := 0 }
        | some _ =>
          { status := 200, success := true, charts_count := charts.length,
            search_results_count := search_results.length }

/-! ## Claims -/

/-- C3: for every topic, the synthesizer fallback invoked with empty
document text and no web results returns a report whose `key_findings` is
exactly the one sentinel element `"Processing complete"` and whose `charts`
list has length exactly 2. -/
theorem create_fallback_structure_empty_inputs (gen_chart : String → String)
    (topic : String) :
    pyGet (create_fallback_structure gen_chart topic "" []) "key_findings"
      = some (.arr [.str "Processing complete"]) ∧
    ∃ cs, pyGet (create_fallback_structure gen_chart topic "" []) "charts"
        = some (.arr cs) ∧ cs.length = 2 := by
  exact ⟨rfl,
    [.str (gen_chart (topic ++ " Trend 1")), .str (gen_chart (topic ++ " Trend 2"))],
    rfl, rfl⟩

/-- C4: for every sequence of data points, `generate_charts` returns the
empty sequence when fewer than two points are supplied; attempts both the
bar and the pie chart for 2 to 6 points; and attempts only the bar chart
for more than 6 points. -/
theorem generate_charts_branching {α : Type}
    (createBar createPie : List α → Option ChartImage) (data_points : List α) :
    (data_points.length < 2 →
      generate_charts createBar createPie data_points = []) ∧
    (2 ≤ data_points.length → data_points.length ≤ 6 →
      generate_charts createBar createPie data_points =
        (createBar data_points).toList ++ (createPie data_points).toList) ∧
    (6 < data_points.length →
      generate_charts createBar createPie data_points =
        (createBar data_points).toList) := by
  unfold generate_charts
  refine ⟨fun h => by rw [if_pos h], fun h2 h6 => ?_, fun h6 => ?_⟩
  · rw [if_neg (by omega), if_pos h6]
  · rw [if_neg (by omega), if_neg (by omega), List.append_nil]

/-- Concrete bar-chart oracle for the C4 witness. -/
def barStub : List Nat → Option ChartImage :=
  fun _ => some { ctype := "bar", image := "img", title := "Data Overview" }

/-- Concrete pie-chart oracle for the C4 witness. -/
def pieStub : List Nat → Option ChartImage :=
  fun _ => some { ctype := "pie", image := "img", title := "Distribution Analysis" }

/-- C4 witness: on a concrete three-point input both charts are produced. -/
theorem generate_charts_branching_witness :
    generate_charts barStub pieStub [10, 20, 30] =
      [{ ctype := "bar", image := "img", title := "Data Overview" },
       { ctype := "pie", image := "img", title := "Distribution Analysis" }] := by
  have h := (generate_charts_branching barStub pieStub [10, 20, 30]).2.1
    (by norm_num) (by norm_num)
  simpa [barStub, pieStub] using h

/-- C5: for every query, when the primary search runs with no configured
credential or when the provider call/parsing raises, the result is exactly
the one-element fallback whose `source` is `"example.com"` — never empty
and never an error. -/
theorem search_failure_fallback (api_key : Option String) (query : String)
    (count : Nat) (provider : Option SerpData)
    (h : api_key = none ∨ provider = none) :
    search api_key query count provider = get_fallback_results ∧
    get_fallback_results.length = 1 ∧
    get_fallback_results.map SearchResult.source = ["example.com"] := by
  refine ⟨?_, rfl, rfl⟩
  rcases h with h | h
  · subst h; rfl
  · subst h
    cases api_key with
    | none => rfl
    | some key => by_cases hk : key = "" <;> simp [search, hk]

/-- C5 witness: with no credential configured the fallback is returned. -/
theorem search_failure_fallback_witness :
    search none "renewable energy" 5 none = get_fallback_results ∧
    get_fallback_results.length = 1 ∧
    get_fallback_results.map SearchResult.source = ["example.com"] :=
  search_failure_fallback none "renewable energy" 5 none (Or.inl rfl)

/-- C7: a POST to `/api/generate-report` whose form lacks the `topic` field
gets status 400 with `success = false`, and the response is the same
constant whatever the stage outcomes are — the handler short-circuits
before any pipeline stage runs. -/
theorem generate_report_missing_topic_400 (serp_key : Option String)
    (serp : Option SerpData) (hf_token : Option String)
    (model_text : Option String) (gen_chart : String → String)
    (createBar createPie : List Json → Option ChartImage)
    (document_text : String) :
    generate_report serp_key serp hf_token model_text gen_chart createBar
        createPie none document_text =
      { status := 400, success := false, charts_count := 0,
        search_results_count := 0 } := rfl

/-- C8: for every query, count and credential state, a failing news-scoped
search returns the empty sequence — not the one-element sentinel fallback
of the primary search (the two failure paths really differ). -/
theorem search_news_failure_empty (api_key : Option String) (query : String)
    (count : Nat) :
    search_news api_key query count none = [] ∧
    (search_news api_key query count none).length = 0 ∧
    get_fallback_results.length = 1 :=
  ⟨rfl, rfl, rfl⟩

/-- `safe_text` returns either the default or the `str` form of a value
whose stripped form is non-blank. -/
theorem safe_text_eq_default_or (x : Json) (d : String) :
    safe_text x d = d ∨ (safe_text x d = pyStr x ∧ pyStrip (pyStr x) ≠ "") := by
  unfold safe_text
  split
  · exact Or.inl rfl
  · split
    · exact Or.inl rfl
    · next h2 => exact Or.inr ⟨rfl, h2⟩

/-- Feeding the default back through `safe_text` returns it unchanged. -/
theorem safe_text_str_self (d : String) : safe_text (Json.str d) d = d := by
  unfold safe_text
  split
  · rfl
  · split <;> rfl

/-- A string that is non-blank after stripping passes through `safe_text`. -/
theorem safe_text_str_of_strip_ne (s d : String) (h : pyStrip s ≠ "") :
    safe_text (Json.str s) d = s := by
  have hs : ¬s.isEmpty = true := by
    intro he
    exact h (by rw [(String.isEmpty_iff s).mp he]; rfl)
  unfold safe_text
  rw [if_neg (by simp [jsonTruthy, hs]), if_neg (show ¬pyStrip (pyStr (.str s)) = "" from h)]
  rfl

/-- A string blank after stripping is replaced by the default. -/
theorem safe_text_str_blank (d s : String) (h : pyStrip s = "") :
    safe_text (Json.str s) d = d := by
  unfold safe_text
  split
  · rfl
  · rw [if_pos (show pyStrip (pyStr (.str s)) = "" from h)]

/-- C10 (amended): `safe_text` is idempotent for every input and default,
and its result is non-empty whenever the default string is non-empty (in
particular at the declared default `"N/A"` used at every call site); null
and blank inputs map to the default, everything else to its `str` form.
The original claim's unconditional non-emptiness fails when the caller
passes an empty default. -/
theorem safe_text_idempotent_nonempty :
    (∀ (x : Json) (d : String),
      safe_text (.str (safe_text x d)) d = safe_text x d) ∧
    (∀ (x : Json) (d : String), d ≠ "" → safe_text x d ≠ "") ∧
    (∀ d : String, safe_text .null d = d) ∧
    (∀ (d s : String), pyStrip s = "" → safe_text (.str s) d = d) ∧
    (∀ (d s : String), pyStrip s ≠ "" → safe_text (.str s) d = s) := by
  refine ⟨fun x d => ?_, fun x d hd => ?_, fun d => rfl,
    fun d s h => safe_text_str_blank d s h,
    fun d s h => safe_text_str_of_strip_ne s d h⟩
  · rcases safe_text_eq_default_or x d with h | ⟨h, hne⟩
    · rw [h, safe_text_str_self]
    · rw [h, safe_text_str_of_strip_ne _ _ hne]
  · rcases safe_text_eq_default_or x d with h | ⟨h, hne⟩
    · rw [h]; exact hd
    · rw [h]
      intro he
      exact hne (by rw [he]; rfl)

/-- C10 witness: concrete instances of the amended claim at the default
`"N/A"` of the source. -/
theorem safe_text_idempotent_nonempty_witness :
    safe_text (.str "  hi  ") "N/A" ≠ "" ∧
    safe_text (.str "   ") "N/A" = "N/A" ∧
    safe_text (.str (safe_text .null "N/A")) "N/A" = safe_text .null "N/A" :=
  ⟨safe_text_idempotent_nonempty.2.1 (.str "  hi  ") "N/A" (by decide),
   safe_text_idempotent_nonempty.2.2.2.1 "N/A" "   " (by decide),
   safe_text_idempotent_nonempty.1 .null "N/A"⟩

/-- C10 counterexample: with an empty default and a falsy input the result
of `safe_text` is the empty string, refuting the unconditional "result is
always a non-empty string". -/
theorem safe_text_empty_default_empty : safe_text Json.null "" = "" := rfl

/-- C1 (amended): when the balanced-brace scan yields a first candidate that
`json.loads` parses into a dict, the extractor returns exactly that dict —
so JSON embedded in surrounding prose is recovered whenever its brace
structure is visible to the scan.  (The original universal claim fails: a
brace character inside a JSON string defeats the candidate scan, see the
counterexample below.) -/
theorem extract_json_first_candidate (text cand : String) (rest : List String)
    (d : PyDict) (h1 : findall1 text = cand :: rest)
    (h2 : jsonLoadsDict cand = some d) :
    extract_json text = some d := by
  unfold extract_json
  rw [h1]
  simp [firstDictParse, h2]

/-- The model response of the spec's worked example. -/
def sureText : String :=
  "Sure! \x7b\"executive_summary\":\"X\",\"key_findings\":[\"a\"],\"recommendations\":[\"b\"]\x7d trailing prose"

/-- The single balanced-brace candidate inside `sureText`. -/
def sureCand : String :=
  "\x7b\"executive_summary\":\"X\",\"key_findings\":[\"a\"],\"recommendations\":[\"b\"]\x7d"

/-- The dict the extractor recovers from `sureText`. -/
def sureDict : PyDict :=
  [("executive_summary", .str "X"),
   ("key_findings", .arr [.str "a"]),
   ("recommendations", .arr [.str "b"])]

/-- C1 witness: on `Sure! {…} trailing prose` the extractor yields the
embedded dict, whose `executive_summary` is `"X"`. -/
theorem extract_json_sure_example :
    extract_json sureText = some sureDict ∧
    pyGet sureDict "executive_summary" = some (.str "X") :=
  ⟨extract_json_first_candidate sureText sureCand [] sureDict rfl rfl, rfl⟩

/-- The text that is itself a valid JSON object, with a closing brace inside
a string value. -/
def braceText : String := "\x7b\"a\":\"\x7d\"\x7d"

/-- C1 counterexample: `braceText` contains (indeed is) a syntactically
valid JSON object, yet both regex patterns only produce the truncated
candidate up to the brace inside the string, so the extractor returns
nothing — refuting "for every generated text that contains a valid JSON
object, the extraction returns the first such object". -/
theorem extract_json_misses_embedded_json :
    extract_json braceText = none ∧
    jsonLoadsDict braceText = some [("a", Json.str "\x7d")] :=
  ⟨rfl, rfl⟩

/-- Lookup in a four-entry dict, written as an if-chain (later keys win). -/
theorem pyGet_quad (a b c d : String) (va vb vc vd : Json) (k : String) :
    pyGet [(a, va), (b, vb), (c, vc), (d, vd)] k =
      if d = k then some vd
      else if c = k then some vc
      else if b = k then some vb
      else if a = k then some va
      else none := by
  by_cases h4 : d = k <;> by_cases h3 : c = k <;> by_cases h2 : b = k <;>
    by_cases h1 : a = k <;> simp [pyGet, h1, h2, h3, h4]

/-- Every list field of a fallback structure has at most five elements (the
summary is a string, the findings at most four entries or the sentinel, the
charts exactly two, the recommendations exactly two). -/
theorem fallback_list_fields_le_five (gen_chart : String → String)
    (topic document_text : String) (web_results : List SearchResult)
    (k : String) (xs : List Json)
    (h : pyGet (create_fallback_structure gen_chart topic document_text web_results) k
      = some (.arr xs)) :
    xs.length ≤ 5 := by
  simp only [create_fallback_structure] at h
  rw [pyGet_quad] at h
  by_cases h4 : "recommendations" = k
  · rw [if_pos h4] at h
    simp only [Option.some.injEq, Json.arr.injEq] at h
    subst h
    simp
  · rw [if_neg h4] at h
    by_cases h3 : "charts" = k
    · rw [if_pos h3] at h
      simp only [Option.some.injEq, Json.arr.injEq] at h
      subst h
      simp
    · rw [if_neg h3] at h
      by_cases h2 : "key_findings" = k
      · rw [if_pos h2] at h
        simp only [Option.some.injEq, Json.arr.injEq] at h
        subst h
        rw [List.length_map]
        split_ifs <;>
          simp only [List.length_append, List.length_take, List.length_map,
            List.length_cons, List.length_nil, List.length_singleton] <;>
          omega
      · rw [if_neg h2] at h
        by_cases h1 : "executive_summary" = k
        · rw [if_pos h1] at h
          exact absurd h (by simp)
        · rw [if_neg h1] at h
          exact absurd h (by simp)

/-- Every list field of a validated model-output dict has at most five
elements: the three list fields are sliced to five, the summary is a
string. -/
theorem validated_list_fields_le_five (gen_chart : String → String)
    (topic : String) (parsed v : PyDict)
    (hv : validateParsed gen_chart topic parsed = some v)
    (k : String) (xs : List Json) (h : pyGet v k = some (.arr xs)) :
    xs.length ≤ 5 := by
  unfold validateParsed at hv
  simp only [] at hv
  split at hv
  case h_2 => exact absurd hv (by simp)
  case h_1 kf5 ch5 rc5 hkf hch hrc =>
    simp only [Option.some.injEq] at hv
    subst hv
    rw [pyGet_quad] at h
    have slice_le : ∀ (w : Json) (w5 : Json), pySlice w 5 = some w5 →
        w5 = .arr xs → xs.length ≤ 5 := by
      intro w w5 hw hwx
      unfold pySlice at hw
      split at hw
      · cases hw; cases hwx; simp
      · cases hw; cases hwx
      · cases hw
    split_ifs at h <;> simp only [Option.some.injEq] at h
    · exact slice_le _ _ hrc h
    · exact slice_le _ _ hch h
    · exact slice_le _ _ hkf h
    · cases h

/-- C2: every report structure returned by the synthesizer — model-output
path and fallback path alike, for every topic, document text and web
results — has `key_findings`, `charts` and `recommendations` lists of
length at most five. -/
theorem generate_report_structure_list_fields_le_five
    (api_token model_text : Option String) (gen_chart : String → String)
    (topic document_text : String) (web_results : List SearchResult)
    (k : String) (xs : List Json)
    (_hk : k = "key_findings" ∨ k = "charts" ∨ k = "recommendations")
    (h : pyGet (generate_report_structure api_token model_text gen_chart topic
        document_text web_results) k = some (.arr xs)) :
    xs.length ≤ 5 := by
  unfold generate_report_structure at h
  split at h
  · exact fallback_list_fields_le_five _ _ _ _ _ _ h
  · split at h
    · exact fallback_list_fields_le_five _ _ _ _ _ _ h
    · split at h
      · exact fallback_list_fields_le_five _ _ _ _ _ _ h
      · split at h
        · exact fallback_list_fields_le_five _ _ _ _ _ _ h
        · split at h
          · exact fallback_list_fields_le_five _ _ _ _ _ _ h
          · split at h
            · exact validated_list_fields_le_five _ _ _ _ (by assumption) _ _ h
            · exact fallback_list_fields_le_five _ _ _ _ _ _ h

/-- C2 witness: with no token configured the fallback's `charts` list is
concrete and within the bound. -/
theorem generate_report_structure_list_fields_le_five_witness :
    pyGet (generate_report_structure none none (fun _ => "img") "t" "" []) "charts"
      = some (.arr [.str "img", .str "img"]) ∧
    ([Json.str "img", Json.str "img"]).length ≤ 5 :=
  ⟨rfl,
   generate_report_structure_list_fields_le_five none none (fun _ => "img") "t" "" []
     "charts" [.str "img", .str "img"] (Or.inr (Or.inl rfl)) rfl⟩

/-- A report dict with every schema field populated by a value of its
declared type (strings for the text fields, string lists for the list
fields); `citations` may still be empty, which drives the References
section. -/
def populatedReport (t es da : String) (kf recs cits : List String) : PyDict :=
  [("title", .str t),
   ("executive_summary", .str es),
   ("key_findings", .arr (kf.map .str)),
   ("detailed_analysis", .str da),
   ("recommendations", .arr (recs.map .str)),
   ("citations", .arr (cits.map .str))]

/-- Closed form of `generate_pdf` on a populated report: the full line
sequence it writes. -/
theorem generate_pdf_populated (t es da : String) (kf recs cits : List String)
    (charts : List ChartImage) :
    generate_pdf (populatedReport t es da kf recs cits) charts =
      some ([PdfLine.cellB 20 (pySliceStr (safe_text (.str t) "N/A") 80),
             PdfLine.cellB 14 "1. Executive Summary",
             PdfLine.body (safe_text (.str es) "N/A"),
             PdfLine.cellB 14 "2. Key Findings"] ++
            (if kf.isEmpty then [Json.str "No key findings available."]
             else kf.map .str).map
              (fun f => PdfLine.body ("  - " ++ safe_text f "N/A")) ++
            [PdfLine.cellB 14 "3. Detailed Analysis",
             PdfLine.body (safe_text (.str da) "N/A")] ++
            (if charts.isEmpty then []
             else [PdfLine.cellB 14 "4. Data Visualizations"]) ++
            [PdfLine.cellB 14 "5. Recommendations"] ++
            (if recs.isEmpty then [Json.str "No recommendations available."]
             else recs.map .str).map
              (fun r => PdfLine.body ("  - " ++ safe_text r "N/A")) ++
            (if cits.isEmpty then []
             else PdfLine.cellB 12 "References" ::
               (cits.map .str).map
                 (fun c => PdfLine.body ("  - " ++ safe_text c "N/A")))) := by
  cases kf <;> cases recs <;> cases cits <;> rfl

/-- C6: on a fully populated report and a non-empty chart list, the
assembler emits all five numbered section headers, and emits the References
header exactly when `citations` is non-empty. -/
theorem generate_pdf_sections (t es da : String) (kf recs cits : List String)
    (charts : List ChartImage) (hch : charts ≠ []) :
    ∃ lines,
      generate_pdf (populatedReport t es da kf recs cits) charts = some lines ∧
      PdfLine.cellB 14 "1. Executive Summary" ∈ lines ∧
      PdfLine.cellB 14 "2. Key Findings" ∈ lines ∧
      PdfLine.cellB 14 "3. Detailed Analysis" ∈ lines ∧
      PdfLine.cellB 14 "4. Data Visualizations" ∈ lines ∧
      PdfLine.cellB 14 "5. Recommendations" ∈ lines ∧
      (PdfLine.cellB 12 "References" ∈ lines ↔ cits ≠ []) := by
  have hche : ¬charts.isEmpty = true := by
    cases charts with
    | nil => exact absurd rfl hch
    | cons a l => simp
  refine ⟨_, generate_pdf_populated t es da kf recs cits charts,
    ?_, ?_, ?_, ?_, ?_, ?_⟩
  · simp
  · simp
  · simp
  · simp [hche]
  · simp
  · cases cits with
    | nil => simp
    | cons c l => simp

/-- C6 witness: a concrete populated report with one chart and no
citations. -/
theorem generate_pdf_sections_witness :
    ∃ lines,
      generate_pdf (populatedReport "T" "S" "D" ["f"] ["r"] [])
          [{ ctype := "bar", image := "i", title := "Data Overview" }]
        = some lines ∧
      PdfLine.cellB 14 "1. Executive Summary" ∈ lines ∧
      PdfLine.cellB 14 "2. Key Findings" ∈ lines ∧
      PdfLine.cellB 14 "3. Detailed Analysis" ∈ lines ∧
      PdfLine.cellB 14 "4. Data Visualizations" ∈ lines ∧
      PdfLine.cellB 14 "5. Recommendations" ∈ lines ∧
      (PdfLine.cellB 12 "References" ∈ lines ↔ ([] : List String) ≠ []) :=
  generate_pdf_sections "T" "S" "D" ["f"] ["r"] []
    [{ ctype := "bar", image := "i", title := "Data Overview" }] (by simp)

/-- Both synthesizer paths produce a dict of exactly the four literal
keys. -/
theorem grs_shape (api_token model_text : Option String)
    (gen_chart : String → String) (topic document_text : String)
    (web_results : List SearchResult) :
    ∃ es kf ch rc,
      generate_report_structure api_token model_text gen_chart topic
          document_text web_results
        = [("executive_summary", es), ("key_findings", kf),
           ("charts", ch), ("recommendations", rc)] := by
  unfold generate_report_structure
  have hfb : ∃ es kf ch rc,
      create_fallback_structure gen_chart topic document_text web_results
        = [("executive_summary", es), ("key_findings", kf),
           ("charts", ch), ("recommendations", rc)] := ⟨_, _, _, _, rfl⟩
  split
  · exact hfb
  · split
    · exact hfb
    · split
      · exact hfb
      · split
        · exact hfb
        · split
          · exact hfb
          · split
            · next v hv =>
              unfold validateParsed at hv
              simp only [] at hv
              split at hv
              · simp only [Option.some.injEq] at hv
                exact ⟨_, _, _, _, hv.symm⟩
              · cases hv
            · exact hfb

/-- C9: the synthesizer's output dict has exactly the keys
`executive_summary`, `key_findings`, `charts`, `recommendations` on both
paths — in particular never a `data_points` key — and consequently the
orchestrator always hands the chart renderer the empty list, so
`charts_count` is 0 in every `/api/generate-report` response (successful
ones included). -/
theorem synthesizer_no_data_points :
    (∀ (api_token model_text : Option String) (gen_chart : String → String)
       (topic document_text : String) (web_results : List SearchResult),
       (generate_report_structure api_token model_text gen_chart topic
           document_text web_results).map Prod.fst
         = ["executive_summary", "key_findings", "charts", "recommendations"] ∧
       pyGet (generate_report_structure api_token model_text gen_chart topic
           document_text web_results) "data_points" = none) ∧
    (∀ (serp_key : Option String) (serp : Option SerpData)
       (hf_token model_text : Option String) (gen_chart : String → String)
       (createBar createPie : List Json → Option ChartImage)
       (topic : Option String) (document_text : String),
       (generate_report serp_key serp hf_token model_text gen_chart createBar
           createPie topic document_text).charts_count = 0) := by
  constructor
  · intro api_token model_text gen_chart topic document_text web_results
    obtain ⟨es, kf, ch, rc, hexp⟩ :=
      grs_shape api_token model_text gen_chart topic document_text web_results
    rw [hexp]
    exact ⟨rfl, rfl⟩
  · intro serp_key serp hf_token model_text gen_chart createBar createPie
      topic document_text
    unfold generate_report
    cases topic with
    | none => rfl
    | some t =>
      dsimp only
      by_cases ht : t = ""
      · simp [ht]
      · rw [if_neg ht]
        obtain ⟨es, kf, ch, rc, hexp⟩ := grs_shape hf_token model_text gen_chart
          t document_text (search serp_key t 5 serp)
        rw [hexp]
        simp only [pyGetD, pyGet, List.isEmpty_cons, Bool.false_eq_true,
          if_false]
        split <;> simp [generate_charts]

end Optisol
